import Mathlib

/-!
Shallow embedding of `packages/webdriverio/src/context.ts` (the `ContextManager`
class) and proofs about its context-tracking behaviour.

JavaScript values that flow through the tracker are either `undefined`, `null`,
or a string; truthiness of such a value is "it is a non-empty string".  The
browser object is modelled by the three boolean properties the tracker reads or
writes (`isBidi`, `isMobile`, `isNativeContext`); `process.env.WDIO_UNIT_TESTS`
is a boolean passed to every operation that reads it, since the code consults
the environment at call time.  `getWindowHandle()` is modelled as a fixed
`Except`-valued outcome, and the asynchronous operations additionally return
the number of handle fetches they performed.
-/

deriving instance DecidableEq for Except

namespace WdioContext

/-- A JavaScript value as it appears in the event payloads the tracker
inspects: `undefined`, `null`, or a string. -/
inductive JSValue where
  | undefinedV : JSValue
  | nullV : JSValue
  | strV : String → JSValue
deriving DecidableEq

/-- JavaScript truthiness restricted to the values above: only a non-empty
string is truthy. -/
def JSValue.truthy : JSValue → Bool
  | JSValue.strV s => !(s == "")
  | _ => false

/-- The browser properties the tracker reads or writes. -/
structure Browser where
  isBidi : Bool
  isMobile : Bool
  isNativeContext : Bool
deriving DecidableEq

/-- The state of one `ContextManager` instance together with the browser it
wraps.  `subscribed` records whether the constructor registered the
`command`/`result` event handlers. -/
structure ContextManagerState where
  browser : Browser
  currentContext : JSValue
  mobileContext : JSValue
  subscribed : Bool
deriving DecidableEq

/-- Embedding of the private `#isEnabled` helper:
`!process.env.WDIO_UNIT_TESTS && (browser.isBidi || browser.isMobile)`. -/
def isEnabled (wdioUnitTests : Bool) (b : Browser) : Bool :=
  !wdioUnitTests && (b.isBidi || b.isMobile)

/-- Embedding of the constructor: the private fields start out `undefined` and
the event handlers are registered exactly when `#isEnabled()` holds at
construction time. -/
def mkContextManager (wdioUnitTests : Bool) (b : Browser) : ContextManagerState :=
  { browser := b
    currentContext := JSValue.undefinedV
    mobileContext := JSValue.undefinedV
    subscribed := isEnabled wdioUnitTests b }

/-- Embedding of `setCurrentContext(context)`: store `context` unconditionally
and update `browser.isNativeContext` to `context === 'NATIVE_APP'` when
`context` is truthy, leaving it unchanged otherwise. -/
def setCurrentContext (context : JSValue) (s : ContextManagerState) : ContextManagerState :=
  { s with
    currentContext := context
    browser := { s.browser with
      isNativeContext :=
        if context.truthy then decide (context = JSValue.strV "NATIVE_APP")
        else s.browser.isNativeContext } }

/-- A `command` event: the command name plus the `body.handle` and `body.name`
fields the handler reads (either of which may be absent). -/
structure CommandEvent where
  command : String
  handle : JSValue
  name : JSValue
deriving DecidableEq

/-- A `result` event: the command name plus the `result.value` field. -/
structure ResultEvent where
  command : String
  value : JSValue
deriving DecidableEq

/-- Embedding of the `command` event handler registered in the constructor. -/
def onCommand (e : CommandEvent) (s : ContextManagerState) : ContextManagerState :=
  let s1 := if e.command = "switchToWindow" then setCurrentContext e.handle s else s
  let s2 :=
    if e.command = "switchToParentFrame" ∨ e.command = "refresh" then
      { s1 with currentContext := JSValue.undefinedV }
    else s1
  let s3 := setCurrentContext e.handle s2
  if e.command = "switchContext" then { s3 with mobileContext := e.name } else s3

/-- Embedding of the `result` event handler registered in the constructor.
Note the strict `event.result.value === null` comparison. -/
def onResult (e : ResultEvent) (s : ContextManagerState) : ContextManagerState :=
  let s1 := if e.command = "getContext" then setCurrentContext e.value s else s
  if e.command = "switchContext" ∧ e.value = JSValue.nullV ∧ s1.mobileContext.truthy then
    setCurrentContext s1.mobileContext s1
  else s1

/-- A `command` event as delivered by the browser: it reaches the handler only
when the constructor registered the subscription. -/
def emitCommand (e : CommandEvent) (s : ContextManagerState) : ContextManagerState :=
  if s.subscribed then onCommand e s else s

/-- A `result` event as delivered by the browser. -/
def emitResult (e : ResultEvent) (s : ContextManagerState) : ContextManagerState :=
  if s.subscribed then onResult e s else s

/-- Either kind of session event. -/
inductive SessionEvent where
  | cmd : CommandEvent → SessionEvent
  | res : ResultEvent → SessionEvent
deriving DecidableEq

/-- Deliver one session event. -/
def emitEvent : SessionEvent → ContextManagerState → ContextManagerState
  | SessionEvent.cmd e, s => emitCommand e s
  | SessionEvent.res e, s => emitResult e s

/-- Deliver a sequence of session events in order. -/
def runEvents (s : ContextManagerState) (evs : List SessionEvent) : ContextManagerState :=
  evs.foldl (fun acc e => emitEvent e acc) s

/-- Embedding of `initialize()`.  `fetch` is the outcome
`browser.getWindowHandle()` would produce; the returned `Nat` counts how many
times the handle fetch was performed.  A rejected fetch propagates as
`Except.error` and performs no state change. -/
def initContext (wdioUnitTests : Bool) (fetch : Except String String)
    (s : ContextManagerState) : Except String String × ContextManagerState × Nat :=
  if !(isEnabled wdioUnitTests s.browser) then (Except.ok "", s, 0)
  else if s.browser.isNativeContext then
    (Except.ok "NATIVE_APP", { s with currentContext := JSValue.strV "NATIVE_APP" }, 0)
  else
    match fetch with
    | Except.error err => (Except.error err, s, 1)
    | Except.ok h => (Except.ok h, { s with currentContext := JSValue.strV h }, 1)

/-- Embedding of `getCurrentContext()`: return the stored context when it is
truthy, otherwise lazily initialize. -/
def getCurrentContext (wdioUnitTests : Bool) (fetch : Except String String)
    (s : ContextManagerState) : Except String String × ContextManagerState × Nat :=
  match s.currentContext with
  | JSValue.strV c =>
      if c = "" then initContext wdioUnitTests fetch s else (Except.ok c, s, 0)
  | _ => initContext wdioUnitTests fetch s

/-- Truthiness of a resolved read: the call succeeded with a non-empty string. -/
def resultTruthy : Except String String → Bool
  | Except.ok v => !(v == "")
  | Except.error _ => false

/-- A sample browser for concrete witnesses: BiDi-capable, not mobile, not in a
native context. -/
def bidiBrowser : Browser :=
  { isBidi := true, isMobile := false, isNativeContext := false }

/-- A sample enabled tracker state for concrete witnesses, as built by the
constructor outside unit-test mode on `bidiBrowser`. -/
def enabledState : ContextManagerState :=
  mkContextManager false bidiBrowser

/-- Delivering an event to a tracker that registered no subscriptions leaves
the state untouched. -/
theorem emitEvent_unsubscribed (e : SessionEvent) (s : ContextManagerState)
    (h : s.subscribed = false) : emitEvent e s = s := by
  cases e <;> simp [emitEvent, emitCommand, emitResult, h]

/-- Delivering any event sequence to a tracker that registered no
subscriptions leaves the state untouched. -/
theorem runEvents_unsubscribed (evs : List SessionEvent) (s : ContextManagerState)
    (h : s.subscribed = false) : runEvents s evs = s := by
  induction evs with
  | nil => rfl
  | cons e evs ih =>
      simp only [runEvents, List.foldl_cons] at *
      rw [emitEvent_unsubscribed e s h, ih]

/-- C1: `setCurrentContext(context)` stores `context` as the new
`currentContext` unconditionally, and sets the session's native-app flag to
"context equals the `NATIVE_APP` sentinel" when `context` is non-empty, leaving
the flag unchanged when `context` is empty. -/
theorem setCurrentContext_contract (context : JSValue) (s : ContextManagerState) :
    (setCurrentContext context s).currentContext = context ∧
    (setCurrentContext context s).browser.isNativeContext =
      (if context.truthy then decide (context = JSValue.strV "NATIVE_APP")
       else s.browser.isNativeContext) :=
  ⟨rfl, rfl⟩

/-- The `command` handler always leaves `event.body.handle` as the stored
current context, whatever the command name is, because of the unconditional
`setCurrentContext(event.body.handle)` call. -/
theorem emitCommand_currentContext (e : CommandEvent) (s : ContextManagerState)
    (hs : s.subscribed = true) : (emitCommand e s).currentContext = e.handle := by
  simp only [emitCommand, hs, if_true]
  simp only [onCommand, setCurrentContext]
  split <;> rfl

/-- The `command` handler leaves the whole browser record (in particular the
native-app flag) unchanged whenever the event's handle is not a truthy value. -/
theorem emitCommand_browser_not_truthy (e : CommandEvent) (s : ContextManagerState)
    (hs : s.subscribed = true) (hf : e.handle.truthy = false) :
    (emitCommand e s).browser = s.browser := by
  simp only [emitCommand, hs, if_true]
  simp only [onCommand, setCurrentContext, hf]
  split <;> split <;> split <;> simp [hf]

/-- The `command` handler does not change the `subscribed` field. -/
theorem emitCommand_subscribed (e : CommandEvent) (s : ContextManagerState) :
    (emitCommand e s).subscribed = s.subscribed := by
  simp only [emitCommand, onCommand, setCurrentContext]
  split
  · split <;> split <;> split <;> rfl
  · rfl

/-- A read on a non-truthy stored context takes the lazy-initialization path. -/
theorem getCurrentContext_not_truthy (u : Bool) (fetch : Except String String)
    (s : ContextManagerState) (h : s.currentContext.truthy = false) :
    getCurrentContext u fetch s = initContext u fetch s := by
  cases hc : s.currentContext with
  | strV c =>
      rw [hc] at h
      simp [JSValue.truthy] at h
      simp [getCurrentContext, hc, h]
  | undefinedV => simp [getCurrentContext, hc]
  | nullV => simp [getCurrentContext, hc]

/-- A read on a truthy stored context returns it with no state change and no
handle fetch. -/
theorem getCurrentContext_strV (u : Bool) (fetch : Except String String)
    (s : ContextManagerState) (c : String) (hc : s.currentContext = JSValue.strV c)
    (hne : c ≠ "") : getCurrentContext u fetch s = (Except.ok c, s, 0) := by
  simp [getCurrentContext, hc, hne]

/-- C2: for a session for which tracking is disabled, the constructor
registers no subscriptions, `currentContext` and `mobileContext` start absent
and stay absent under any sequence of delivered events, and every
`getCurrentContext()` / `initialize()` call resolves to the empty string with
no state change and no handle fetch. -/
theorem disabled_tracker_inert (u : Bool) (b : Browser) (evs : List SessionEvent)
    (fetch : Except String String) (h : isEnabled u b = false) :
    (mkContextManager u b).subscribed = false ∧
    (mkContextManager u b).currentContext = JSValue.undefinedV ∧
    (mkContextManager u b).mobileContext = JSValue.undefinedV ∧
    runEvents (mkContextManager u b) evs = mkContextManager u b ∧
    getCurrentContext u fetch (runEvents (mkContextManager u b) evs) =
      (Except.ok "", mkContextManager u b, 0) ∧
    initContext u fetch (runEvents (mkContextManager u b) evs) =
      (Except.ok "", mkContextManager u b, 0) := by
  have hsub : (mkContextManager u b).subscribed = false := by
    simp [mkContextManager, h]
  have hrun : runEvents (mkContextManager u b) evs = mkContextManager u b :=
    runEvents_unsubscribed evs _ hsub
  refine ⟨hsub, rfl, rfl, hrun, ?_, ?_⟩ <;>
    · rw [hrun]
      simp [getCurrentContext, initContext, mkContextManager, h]

/-- Witness for C2 at a concrete disabled session (unit-test mode on), with a
concrete event sequence. -/
theorem disabled_tracker_inert_witness :
    isEnabled true bidiBrowser = false ∧
    (runEvents (mkContextManager true bidiBrowser)
        [SessionEvent.cmd ⟨"switchToWindow", JSValue.strV "h1", JSValue.undefinedV⟩] =
      mkContextManager true bidiBrowser ∧
    getCurrentContext true (Except.ok "wh")
        (runEvents (mkContextManager true bidiBrowser)
          [SessionEvent.cmd ⟨"switchToWindow", JSValue.strV "h1", JSValue.undefinedV⟩]) =
      (Except.ok "", mkContextManager true bidiBrowser, 0)) :=
  ⟨by decide,
   (disabled_tracker_inert true bidiBrowser
      [SessionEvent.cmd ⟨"switchToWindow", JSValue.strV "h1", JSValue.undefinedV⟩]
      (Except.ok "wh") (by decide)).2.2.2.1,
   (disabled_tracker_inert true bidiBrowser
      [SessionEvent.cmd ⟨"switchToWindow", JSValue.strV "h1", JSValue.undefinedV⟩]
      (Except.ok "wh") (by decide)).2.2.2.2.1⟩

/-- C3 counterexample: a tracker constructed while enabled (subscriptions
registered) nevertheless resolves `initialize()` to the empty string when the
unit-test flag is set at call time, so the enablement decision is re-evaluated
after construction and later outcomes do not depend only on the
construction-time value. -/
theorem enablement_reevaluated_counterexample :
    isEnabled false bidiBrowser = true ∧
    (mkContextManager false bidiBrowser).subscribed = true ∧
    (initContext false (Except.ok "h1") (mkContextManager false bidiBrowser)).1 =
      Except.ok "h1" ∧
    (initContext true (Except.ok "h1") (mkContextManager false bidiBrowser)).1 =
      Except.ok "" ∧
    (initContext true (Except.ok "h1") (mkContextManager false bidiBrowser)).1 ≠
      (initContext false (Except.ok "h1") (mkContextManager false bidiBrowser)).1 := by
  decide

/-- C3 amended: the enablement decision gates event subscriptions once at
construction, but `initialize()` (and therefore a lazily initializing
`getCurrentContext()`) re-evaluates it on every call: the resolved value and
the fetch count of such a call are determined by the enablement inputs at call
time and are independent of the construction-time decision, and a call made
while enablement evaluates to false resolves to the empty string with no state
change. -/
theorem enablement_evaluated_at_call_time (u1 u2 u : Bool) (b : Browser)
    (fetch : Except String String) :
    (initContext u fetch (mkContextManager u1 b)).1 =
      (initContext u fetch (mkContextManager u2 b)).1 ∧
    (initContext u fetch (mkContextManager u1 b)).2.2 =
      (initContext u fetch (mkContextManager u2 b)).2.2 ∧
    (getCurrentContext u fetch (mkContextManager u1 b)).1 =
      (getCurrentContext u fetch (mkContextManager u2 b)).1 ∧
    (isEnabled u b = false →
      initContext u fetch (mkContextManager u1 b) =
        (Except.ok "", mkContextManager u1 b, 0)) := by
  rcases fetch with err | hv <;>
    simp [initContext, getCurrentContext, mkContextManager, isEnabled] <;>
    cases u <;> cases b.isBidi <;> cases b.isMobile <;> cases b.isNativeContext <;> simp

/-- Witness for C3's amended theorem at concrete inputs, with the
disabled-at-call-time hypothesis discharged. -/
theorem enablement_evaluated_at_call_time_witness :
    isEnabled true bidiBrowser = false ∧
    initContext true (Except.ok "h1") (mkContextManager false bidiBrowser) =
      (Except.ok "", mkContextManager false bidiBrowser, 0) :=
  ⟨by decide,
   (enablement_evaluated_at_call_time false true true bidiBrowser
      (Except.ok "h1")).2.2.2 (by decide)⟩

/-- C4: on an enabled tracker, every `command` event, whatever its name, ends
with `setCurrentContext(event.body.handle)` applied, so the stored current
context becomes the event's handle; when the body carries no handle the stored
context becomes absent while the native-app flag is unchanged, and the next
read takes the lazy-initialization path. -/
theorem command_event_always_applies_handle (e : CommandEvent) (s : ContextManagerState)
    (hs : s.subscribed = true) :
    (emitCommand e s).currentContext = e.handle ∧
    (e.handle.truthy = false →
      (emitCommand e s).browser.isNativeContext = s.browser.isNativeContext) ∧
    (e.handle = JSValue.undefinedV → ∀ (u : Bool) (fetch : Except String String),
      getCurrentContext u fetch (emitCommand e s) = initContext u fetch (emitCommand e s)) := by
  refine ⟨emitCommand_currentContext e s hs,
    fun hf => by rw [emitCommand_browser_not_truthy e s hs hf], ?_⟩
  intro hu u fetch
  refine getCurrentContext_not_truthy u fetch _ ?_
  rw [emitCommand_currentContext e s hs, hu]
  rfl

/-- Witness for C4 at a concrete enabled tracker and a command (`getContext`)
outside the recognized set, whose body carries no handle. -/
theorem command_event_always_applies_handle_witness :
    enabledState.subscribed = true ∧
    (emitCommand ⟨"getContext", JSValue.undefinedV, JSValue.undefinedV⟩
        enabledState).currentContext = JSValue.undefinedV ∧
    (emitCommand ⟨"getContext", JSValue.undefinedV, JSValue.undefinedV⟩
        enabledState).browser.isNativeContext = enabledState.browser.isNativeContext ∧
    getCurrentContext false (Except.ok "wh")
        (emitCommand ⟨"getContext", JSValue.undefinedV, JSValue.undefinedV⟩ enabledState) =
      initContext false (Except.ok "wh")
        (emitCommand ⟨"getContext", JSValue.undefinedV, JSValue.undefinedV⟩ enabledState) :=
  ⟨by decide,
   (command_event_always_applies_handle
      ⟨"getContext", JSValue.undefinedV, JSValue.undefinedV⟩ enabledState (by decide)).1,
   (command_event_always_applies_handle
      ⟨"getContext", JSValue.undefinedV, JSValue.undefinedV⟩ enabledState (by decide)).2.1
      (by decide),
   (command_event_always_applies_handle
      ⟨"getContext", JSValue.undefinedV, JSValue.undefinedV⟩ enabledState (by decide)).2.2
      rfl false (Except.ok "wh")⟩

/-- C5: on an enabled tracker, after a `switchToWindow` command event whose
handle is a non-empty string `h`, `getCurrentContext()` resolves to `h` with no
state change and no window-handle fetch. -/
theorem switchToWindow_then_read (u : Bool) (fetch : Except String String)
    (s : ContextManagerState) (h : String) (nm : JSValue)
    (hs : s.subscribed = true) (hh : h ≠ "") :
    getCurrentContext u fetch (emitCommand ⟨"switchToWindow", JSValue.strV h, nm⟩ s) =
      (Except.ok h, emitCommand ⟨"switchToWindow", JSValue.strV h, nm⟩ s, 0) :=
  getCurrentContext_strV u fetch _ h
    (emitCommand_currentContext ⟨"switchToWindow", JSValue.strV h, nm⟩ s hs) hh

/-- Witness for C5 at a concrete enabled tracker and handle `"h1"`. -/
theorem switchToWindow_then_read_witness :
    enabledState.subscribed = true ∧ "h1" ≠ "" ∧
    getCurrentContext false (Except.ok "wh")
        (emitCommand ⟨"switchToWindow", JSValue.strV "h1", JSValue.undefinedV⟩ enabledState) =
      (Except.ok "h1",
        emitCommand ⟨"switchToWindow", JSValue.strV "h1", JSValue.undefinedV⟩ enabledState, 0) :=
  ⟨by decide, by decide,
   switchToWindow_then_read false (Except.ok "wh") enabledState "h1" JSValue.undefinedV
     (by decide) (by decide)⟩

/-- C6: on an enabled tracker, a `getContext` result event adopts the result's
value as the new current context via the setter; in particular value
`"ctx-42"` yields current context `"ctx-42"` with the native-app flag `false`,
and value `"NATIVE_APP"` yields current context `"NATIVE_APP"` with the flag
`true`. -/
theorem getContext_result_adopts_value (s : ContextManagerState) (v : String)
    (hs : s.subscribed = true) (hv : v ≠ "") :
    (emitResult ⟨"getContext", JSValue.strV v⟩ s).currentContext = JSValue.strV v ∧
    (emitResult ⟨"getContext", JSValue.strV v⟩ s).browser.isNativeContext =
      decide (v = "NATIVE_APP") ∧
    (emitResult ⟨"getContext", JSValue.strV "ctx-42"⟩ s).currentContext =
      JSValue.strV "ctx-42" ∧
    (emitResult ⟨"getContext", JSValue.strV "ctx-42"⟩ s).browser.isNativeContext = false ∧
    (emitResult ⟨"getContext", JSValue.strV "NATIVE_APP"⟩ s).currentContext =
      JSValue.strV "NATIVE_APP" ∧
    (emitResult ⟨"getContext", JSValue.strV "NATIVE_APP"⟩ s).browser.isNativeContext = true := by
  refine ⟨?_, ?_, ?_, ?_, ?_, ?_⟩ <;>
    simp [emitResult, hs, onResult, setCurrentContext, JSValue.truthy, hv]

/-- Witness for C6 at a concrete enabled tracker and value `"ctx-42"`. -/
theorem getContext_result_adopts_value_witness :
    enabledState.subscribed = true ∧ "ctx-42" ≠ "" ∧
    (emitResult ⟨"getContext", JSValue.strV "ctx-42"⟩ enabledState).currentContext =
      JSValue.strV "ctx-42" ∧
    (emitResult ⟨"getContext", JSValue.strV "NATIVE_APP"⟩
        enabledState).browser.isNativeContext = true :=
  ⟨by decide, by decide,
   (getContext_result_adopts_value enabledState "ctx-42" (by decide) (by decide)).1,
   (getContext_result_adopts_value enabledState "ctx-42" (by decide) (by decide)).2.2.2.2.2⟩

/-- A sample enabled mobile-session tracker state that has already resolved a
web context, used as a concrete starting point. -/
def mobileState : ContextManagerState :=
  { browser := { isBidi := false, isMobile := true, isNativeContext := false }
    currentContext := JSValue.strV "h1"
    mobileContext := JSValue.undefinedV
    subscribed := true }

/-- C7 counterexample: after a `switchContext` command event with name
`"WEBVIEW_1"`, a `switchContext` result event whose value is the empty string
(an "explicitly empty" result) does not trigger the fallback: the handler
compares the result value strictly against `null`, so the state is unchanged
and the current context is not set to the remembered mobile context. -/
theorem switchContext_empty_result_no_fallback :
    (emitCommand ⟨"switchContext", JSValue.undefinedV, JSValue.strV "WEBVIEW_1"⟩
        mobileState).mobileContext = JSValue.strV "WEBVIEW_1" ∧
    emitResult ⟨"switchContext", JSValue.strV ""⟩
        (emitCommand ⟨"switchContext", JSValue.undefinedV, JSValue.strV "WEBVIEW_1"⟩
          mobileState) =
      emitCommand ⟨"switchContext", JSValue.undefinedV, JSValue.strV "WEBVIEW_1"⟩
        mobileState ∧
    (emitResult ⟨"switchContext", JSValue.strV ""⟩
        (emitCommand ⟨"switchContext", JSValue.undefinedV, JSValue.strV "WEBVIEW_1"⟩
          mobileState)).currentContext ≠ JSValue.strV "WEBVIEW_1" := by
  decide

/-- C7 amended: on an enabled tracker, a `switchContext` command event with a
non-empty name `n` stores `n` as the remembered mobile context, and a
subsequent `switchContext` result event triggers the fallback (setting the
current context to `n` via the setter) exactly when its result value is
strictly `null`; for any non-`null` result value, including the empty string,
the state is unchanged. -/
theorem switchContext_null_result_fallback (s : ContextManagerState) (n : String)
    (hv : JSValue) (hs : s.subscribed = true) (hn : n ≠ "") :
    (emitCommand ⟨"switchContext", hv, JSValue.strV n⟩ s).mobileContext =
      JSValue.strV n ∧
    (emitResult ⟨"switchContext", JSValue.nullV⟩
        (emitCommand ⟨"switchContext", hv, JSValue.strV n⟩ s)).currentContext =
      JSValue.strV n ∧
    (∀ v : JSValue, v ≠ JSValue.nullV →
      emitResult ⟨"switchContext", v⟩ (emitCommand ⟨"switchContext", hv, JSValue.strV n⟩ s) =
        emitCommand ⟨"switchContext", hv, JSValue.strV n⟩ s) := by
  have hsub : (emitCommand ⟨"switchContext", hv, JSValue.strV n⟩ s).subscribed = true := by
    rw [emitCommand_subscribed]; exact hs
  have hmob : (emitCommand ⟨"switchContext", hv, JSValue.strV n⟩ s).mobileContext =
      JSValue.strV n := by
    simp [emitCommand, hs, onCommand, setCurrentContext]
  refine ⟨hmob, ?_, ?_⟩
  · simp [emitResult, hsub, onResult, hmob, setCurrentContext, JSValue.truthy, hn]
  · intro v hv'
    simp [emitResult, hsub, onResult, hv']

/-- Witness for C7's amended theorem at name `"WEBVIEW_1"` with a `null`
result value and with a non-`null` (empty-string) result value. -/
theorem switchContext_null_result_fallback_witness :
    mobileState.subscribed = true ∧ "WEBVIEW_1" ≠ "" ∧
    (emitResult ⟨"switchContext", JSValue.nullV⟩
        (emitCommand ⟨"switchContext", JSValue.undefinedV, JSValue.strV "WEBVIEW_1"⟩
          mobileState)).currentContext = JSValue.strV "WEBVIEW_1" ∧
    emitResult ⟨"switchContext", JSValue.strV ""⟩
        (emitCommand ⟨"switchContext", JSValue.undefinedV, JSValue.strV "WEBVIEW_1"⟩
          mobileState) =
      emitCommand ⟨"switchContext", JSValue.undefinedV, JSValue.strV "WEBVIEW_1"⟩
        mobileState :=
  ⟨by decide, by decide,
   (switchContext_null_result_fallback mobileState "WEBVIEW_1" JSValue.undefinedV
      (by decide) (by decide)).2.1,
   (switchContext_null_result_fallback mobileState "WEBVIEW_1" JSValue.undefinedV
      (by decide) (by decide)).2.2 (JSValue.strV "") (by decide)⟩

/-- C8: on an enabled tracker, a `switchToParentFrame` or `refresh` command
event clears the stored context and re-applies the setter with the event's
handle; when the handle is empty or absent the stored context ends up
non-truthy (it is exactly the handle value), the native-app flag is unchanged,
the next read takes the lazy-initialization path, and when the session is
enabled and not in a native context that read performs exactly one handle
fetch. -/
theorem parentFrame_refresh_clears (s : ContextManagerState) (cmd : String)
    (hv nm : JSValue) (hs : s.subscribed = true)
    (hcmd : cmd = "switchToParentFrame" ∨ cmd = "refresh") (hf : hv.truthy = false) :
    (emitCommand ⟨cmd, hv, nm⟩ s).currentContext = hv ∧
    (emitCommand ⟨cmd, hv, nm⟩ s).currentContext.truthy = false ∧
    (emitCommand ⟨cmd, hv, nm⟩ s).browser.isNativeContext = s.browser.isNativeContext ∧
    (∀ (u : Bool) (fetch : Except String String),
      getCurrentContext u fetch (emitCommand ⟨cmd, hv, nm⟩ s) =
        initContext u fetch (emitCommand ⟨cmd, hv, nm⟩ s)) ∧
    (∀ (u : Bool) (fetch : Except String String),
      isEnabled u s.browser = true → s.browser.isNativeContext = false →
        (getCurrentContext u fetch (emitCommand ⟨cmd, hv, nm⟩ s)).2.2 = 1) := by
  have hcc : (emitCommand ⟨cmd, hv, nm⟩ s).currentContext = hv :=
    emitCommand_currentContext ⟨cmd, hv, nm⟩ s hs
  have hbr : (emitCommand ⟨cmd, hv, nm⟩ s).browser = s.browser :=
    emitCommand_browser_not_truthy ⟨cmd, hv, nm⟩ s hs hf
  have htr : (emitCommand ⟨cmd, hv, nm⟩ s).currentContext.truthy = false := by
    rw [hcc]; exact hf
  have hlazy : ∀ (u : Bool) (fetch : Except String String),
      getCurrentContext u fetch (emitCommand ⟨cmd, hv, nm⟩ s) =
        initContext u fetch (emitCommand ⟨cmd, hv, nm⟩ s) :=
    fun u fetch => getCurrentContext_not_truthy u fetch _ htr
  refine ⟨hcc, htr, by rw [hbr], hlazy, ?_⟩
  intro u fetch hen hnat
  rw [hlazy u fetch]
  rcases fetch with err | h <;> simp [initContext, hbr, hen, hnat]

/-- Witness for C8 at a `switchToParentFrame` event with an absent handle,
delivered to a concrete enabled tracker holding context `"h1"`. -/
theorem parentFrame_refresh_clears_witness :
    mobileState.subscribed = true ∧
    ("switchToParentFrame" = "switchToParentFrame" ∨
      "switchToParentFrame" = "refresh") ∧
    JSValue.undefinedV.truthy = false ∧
    (emitCommand ⟨"switchToParentFrame", JSValue.undefinedV, JSValue.undefinedV⟩
        mobileState).currentContext = JSValue.undefinedV ∧
    (getCurrentContext false (Except.ok "h2")
        (emitCommand ⟨"switchToParentFrame", JSValue.undefinedV, JSValue.undefinedV⟩
          mobileState)).2.2 = 1 :=
  ⟨by decide, Or.inl rfl, by decide,
   (parentFrame_refresh_clears mobileState "switchToParentFrame" JSValue.undefinedV
      JSValue.undefinedV (by decide) (Or.inl rfl) (by decide)).1,
   (parentFrame_refresh_clears mobileState "switchToParentFrame" JSValue.undefinedV
      JSValue.undefinedV (by decide) (Or.inl rfl) (by decide)).2.2.2.2 false
      (Except.ok "h2") (by decide) (by decide)⟩

/-- C9: on an enabled tracker that is not in a native context and whose stored
context is absent, a failing window-handle fetch makes `initialize()` and
`getCurrentContext()` propagate that same failure with exactly one fetch
attempt (no retry) and no state change, so the stored context is still absent
and the next read performs the fetch again. -/
theorem initFailure_propagates (u : Bool) (s : ContextManagerState) (err : String)
    (h1 : isEnabled u s.browser = true) (h2 : s.browser.isNativeContext = false)
    (h3 : s.currentContext.truthy = false) :
    initContext u (Except.error err) s = (Except.error err, s, 1) ∧
    getCurrentContext u (Except.error err) s = (Except.error err, s, 1) ∧
    (getCurrentContext u (Except.error err)
        (getCurrentContext u (Except.error err) s).2.1).2.2 = 1 := by
  have hinit : initContext u (Except.error err) s = (Except.error err, s, 1) := by
    simp [initContext, h1, h2]
  have hget : getCurrentContext u (Except.error err) s = (Except.error err, s, 1) := by
    rw [getCurrentContext_not_truthy u _ s h3, hinit]
  refine ⟨hinit, hget, ?_⟩
  rw [hget]
  rw [show ((Except.error err : Except String String), s, 1).2.1 = s from rfl, hget]

/-- Witness for C9 at a concrete enabled, non-native tracker with an absent
stored context and a concrete rejection. -/
theorem initFailure_propagates_witness :
    isEnabled false enabledState.browser = true ∧
    enabledState.browser.isNativeContext = false ∧
    enabledState.currentContext.truthy = false ∧
    getCurrentContext false (Except.error "boom") enabledState =
      (Except.error "boom", enabledState, 1) :=
  ⟨by decide, by decide, by decide,
   (initFailure_propagates false enabledState "boom" (by decide) (by decide)
      (by decide)).2.1⟩

/-- C10 counterexample: on an enabled, non-native tracker with an absent
stored context whose window-handle fetch resolves to the empty string, two
consecutive `getCurrentContext()` calls with no intervening events perform one
handle fetch each — two fetches in total, not at most one. -/
theorem read_twice_double_fetch :
    (getCurrentContext false (Except.ok "") enabledState).2.2 = 1 ∧
    (getCurrentContext false (Except.ok "")
        (getCurrentContext false (Except.ok "") enabledState).2.1).2.2 = 1 ∧
    ¬((getCurrentContext false (Except.ok "") enabledState).2.2 +
        (getCurrentContext false (Except.ok "")
          (getCurrentContext false (Except.ok "") enabledState).2.1).2.2 ≤ 1) ∧
    (getCurrentContext false (Except.ok "")
        (getCurrentContext false (Except.ok "") enabledState).2.1).1 =
      (getCurrentContext false (Except.ok "") enabledState).1 := by
  decide

/-- C10 amended: two consecutive `getCurrentContext()` calls with no
intervening events resolve to the same value, and they perform the
window-handle fetch at most once between them except when the first call
fails or resolves to the empty string (then each call may fetch once). -/
theorem read_idempotent (u : Bool) (fetch : Except String String)
    (s : ContextManagerState) :
    (getCurrentContext u fetch ((getCurrentContext u fetch s).2.1)).1 =
      (getCurrentContext u fetch s).1 ∧
    ((getCurrentContext u fetch s).2.2 +
        (getCurrentContext u fetch ((getCurrentContext u fetch s).2.1)).2.2 ≤ 1 ∨
      resultTruthy (getCurrentContext u fetch s).1 = false) := by
  by_cases ht : s.currentContext.truthy = true
  · cases hc : s.currentContext with
    | strV c =>
        have hne : c ≠ "" := by
          rw [hc] at ht
          simpa [JSValue.truthy] using ht
        rw [getCurrentContext_strV u fetch s c hc hne]
        rw [show ((Except.ok c : Except String String), s, 0).2.1 = s from rfl]
        rw [getCurrentContext_strV u fetch s c hc hne]
        exact ⟨rfl, Or.inl (by simp)⟩
    | undefinedV => rw [hc] at ht; simp [JSValue.truthy] at ht
    | nullV => rw [hc] at ht; simp [JSValue.truthy] at ht
  · have ht' : s.currentContext.truthy = false := by simpa using ht
    rw [getCurrentContext_not_truthy u fetch s ht']
    by_cases hen : isEnabled u s.browser = true
    · by_cases hn : s.browser.isNativeContext = true
      · have h1 : initContext u fetch s =
            (Except.ok "NATIVE_APP",
              { s with currentContext := JSValue.strV "NATIVE_APP" }, 0) := by
          simp [initContext, hen, hn]
        rw [h1]
        rw [getCurrentContext_strV u fetch _ "NATIVE_APP" rfl (by decide)]
        exact ⟨rfl, Or.inl (by simp)⟩
      · have hn' : s.browser.isNativeContext = false := by simpa using hn
        rcases fetch with err | h
        · have h1 : initContext u (Except.error err) s = (Except.error err, s, 1) := by
            simp [initContext, hen, hn']
          rw [h1]
          rw [show ((Except.error err : Except String String), s, 1).2.1 = s from rfl]
          rw [getCurrentContext_not_truthy u _ s ht', h1]
          exact ⟨rfl, Or.inr rfl⟩
        · have h1 : initContext u (Except.ok h) s =
              (Except.ok h, { s with currentContext := JSValue.strV h }, 1) := by
            simp [initContext, hen, hn']
          rw [h1]
          by_cases hh : h = ""
          · subst hh
            have ht2 : ({ s with currentContext := JSValue.strV "" } : ContextManagerState).currentContext.truthy = false := by
              simp [JSValue.truthy]
            rw [getCurrentContext_not_truthy u _ _ ht2]
            have h2 : initContext u (Except.ok "") ({ s with currentContext := JSValue.strV "" } : ContextManagerState) = (Except.ok "", { s with currentContext := JSValue.strV "" }, 1) := by
              simp [initContext, hen, hn']
            rw [h2]
            exact ⟨rfl, Or.inr rfl⟩
          · rw [getCurrentContext_strV u (Except.ok h) _ h rfl hh]
            exact ⟨rfl, Or.inl (by simp)⟩
    · have hen' : isEnabled u s.browser = false := by simpa using hen
      have h1 : initContext u fetch s = (Except.ok "", s, 0) := by
        simp [initContext, hen']
      rw [h1]
      rw [show ((Except.ok "" : Except String String), s, 0).2.1 = s from rfl]
      rw [getCurrentContext_not_truthy u fetch s ht', h1]
      exact ⟨rfl, Or.inl (by simp)⟩

end WdioContext
